import Mathlib

/-!
Shallow embedding of the transactional check-in / user-deletion logic of
`src/app/controllers/user.controller.js` (wildhacks-2017-backend).

The async control flow of `checkInToEvent` and `deleteUserById` is modelled as
straight-line state passing over an explicit execution state `Exec`: the
database, the writes buffered in the open transaction, the transaction status,
the settlement of the promise handed to the caller (`resolve`/`reject` on a
settled promise is a no-op, as in JS), and a trace of observable events in the
order the source performs them.
-/

namespace WildHacks

/-- A row of the `users` table (the fields the controller reads). -/
structure User where
  id : Nat
  email : String
deriving DecidableEq, Repr

/-- A row of the `events` table (the fields the controller reads). -/
structure Event where
  id : Nat
  name : String
deriving DecidableEq, Repr

/-- A row of the `check_ins` join table: `{ event_id, user_id }`. -/
structure CheckIn where
  event_id : Nat
  user_id : Nat
deriving DecidableEq, Repr

/-- A row of the `tokens` table; `user_id` references `users.id` with
`ON DELETE CASCADE` (Token model). -/
structure Token where
  id : Nat
  user_id : Nat
deriving DecidableEq, Repr

/-- A row of the `applications` table, keyed to its user. -/
structure Application where
  id : Nat
  user_id : Nat
deriving DecidableEq, Repr

/-- A row of the `talks` table; `speaker_id` references `users.id` with
`ON DELETE CASCADE` (migration 20170810005639-create-talk). -/
structure Talk where
  id : Nat
  speaker_id : Nat
deriving DecidableEq, Repr

/-- The database state: one list per table the two operations touch. -/
structure DB where
  users : List User
  events : List Event
  checkIns : List CheckIn
  tokens : List Token
  applications : List Application
  talks : List Talk
deriving DecidableEq, Repr

/-- `getUserById`: `models.User.findOne({ where: { id } })`. -/
def getUserById (id : Nat) (db : DB) : Option User :=
  db.users.find? (fun u => u.id == id)

/-- Modelled from the spec: `findEventById(id) -> Event | null` (§6) —
`event.controller.js` is not under src/; `eventController.getEventById` is a
lookup of the event with the given id, `null` if absent. -/
def getEventById (id : Nat) (db : DB) : Option Event :=
  db.events.find? (fun e => e.id == id)

/-- The `where` clause of `getCheckIn`: `event_id = eventId AND user_id = userId`. -/
def matchesPair (eventId userId : Nat) (c : CheckIn) : Bool :=
  c.event_id == eventId && c.user_id == userId

/-- `getCheckIn`: `models.CheckIn.findOne({ where: { event_id, user_id } })`. -/
def getCheckIn (eventId userId : Nat) (db : DB) : Option CheckIn :=
  db.checkIns.find? (matchesPair eventId userId)

/-- Number of CheckIn rows stored for a given (event, user) pair. -/
def checkInCount (eventId userId : Nat) (db : DB) : Nat :=
  (db.checkIns.filter (matchesPair eventId userId)).length

/-- Errors the controller can settle its promise with. -/
inductive Err
  | notFound (msg : String)
  | storage (msg : String)
deriving DecidableEq, Repr

/-- The `SuccessMessage` type: `{ success: bool, message: string | null }`. -/
structure SuccessMessage where
  success : Bool
  message : Option String
deriving DecidableEq, Repr

/-- Observable events of one controller call, in source order. -/
inductive Act
  | txBegin
  | createCheckIn (eventId userId : Nat)
  | resolve (r : SuccessMessage)
  | reject (e : Err)
  | txCommit
  | txRollback
  | destroyStart (userId : Nat)
  | destroyComplete (userId : Nat)
deriving DecidableEq, Repr

/-- Settlement of a JS promise: fulfilled with a value or rejected with an
error. -/
inductive Settled
  | ok (r : SuccessMessage)
  | error (e : Err)
deriving DecidableEq, Repr

/-- Status of the transaction a call opened (if any). -/
inductive TxStatus
  | noTx
  | opened
  | committed
  | rolledBack
deriving DecidableEq, Repr

/-- Execution state of one controller call: database, writes buffered in the
open transaction, transaction status, settlement of the returned promise, and
the trace of events so far. -/
structure Exec where
  db : DB
  pending : List CheckIn
  tx : TxStatus
  settled : Option Settled
  trace : List Act
deriving DecidableEq, Repr

/-- JS `resolve(r)`: settles the promise if it is not yet settled, otherwise a
no-op. -/
def Exec.resolve (s : Exec) (r : SuccessMessage) : Exec :=
  match s.settled with
  | some _ => s
  | none => { s with settled := some (.ok r), trace := s.trace ++ [.resolve r] }

/-- JS `reject(e)`: settles the promise with an error if it is not yet
settled, otherwise a no-op. -/
def Exec.reject (s : Exec) (e : Err) : Exec :=
  match s.settled with
  | some _ => s
  | none => { s with settled := some (.error e), trace := s.trace ++ [.reject e] }

/-- `t.commit()`: the writes buffered in the transaction become visible in the
database. -/
def Exec.commit (s : Exec) : Exec :=
  { s with db := { s.db with checkIns := s.db.checkIns ++ s.pending },
           pending := [], tx := .committed, trace := s.trace ++ [.txCommit] }

/-- `t.rollback()`: the writes buffered in the transaction are discarded. -/
def Exec.rollback (s : Exec) : Exec :=
  { s with pending := [], tx := .rolledBack, trace := s.trace ++ [.txRollback] }

/-- The body of `checkInToEvent` after the three lookups have been joined:
the branching logic of user.controller.js lines 203-227, with the catch block
(lines 229-232) `reject(err); await t.rollback()` applied on each throw.
`createOk` is the storage oracle for whether `models.CheckIn.create`
succeeds. Source control-flow facts preserved: the fresh path resolves the
success result before `await t.commit()` and then falls through to the
unconditional `resolve({success: false, ...})` (a no-op on the settled
promise); the already-checked-in path neither commits nor rolls back. -/
def checkInBranch (eventId userId : Nat) (createOk : Bool) (db : DB)
    (user : Option User) (event : Option Event) (existing : Option CheckIn) : Exec :=
  let s0 : Exec := { db := db, pending := [], tx := .opened, settled := none, trace := [.txBegin] }
  match user with
  | none => (s0.reject (.notFound "Unable to check-in because user does not exist")).rollback
  | some u =>
    match event with
    | none => (s0.reject (.notFound "Unable to check-in because event does not exist")).rollback
    | some ev =>
      match existing with
      | some _ =>
        s0.resolve { success := false, message := some (u.email ++ " has already checked into " ++ ev.name) }
      | none =>
        if createOk then
          let s1 : Exec := { s0 with
            pending := s0.pending ++ [{ event_id := eventId, user_id := userId }],
            trace := s0.trace ++ [.createCheckIn eventId userId] }
          let s2 := s1.resolve { success := true, message := some (u.email ++ " checked into " ++ ev.name ++ "!") }
          let s3 := s2.commit
          s3.resolve { success := false, message := some (u.email ++ " has already checked into " ++ ev.name) }
        else
          (s0.reject (.storage "CheckIn.create failed")).rollback

/-- `checkInToEvent(eventId, userId)` (user.controller.js lines 192-234):
opens a transaction, joins the three lookups, then branches. -/
def checkInToEvent (eventId userId : Nat) (createOk : Bool) (db : DB) : Exec :=
  checkInBranch eventId userId createOk db
    (getUserById userId db) (getEventById eventId db) (getCheckIn eventId userId db)

/-- One of the three lookups of `checkInToEvent`, by index
(0 = user, 1 = event, 2 = existing check-in), filled into an accumulator. -/
def lookupStep (eventId userId : Nat) (db : DB) (acc : Option User × Option Event × Option CheckIn)
    (k : Nat) : Option User × Option Event × Option CheckIn :=
  match k with
  | 0 => (getUserById userId db, acc.2.1, acc.2.2)
  | 1 => (acc.1, getEventById eventId db, acc.2.2)
  | _ => (acc.1, acc.2.1, getCheckIn eventId userId db)

/-- The three lookups performed one at a time against the same state, in the
order given by `order` (a permutation of `[0, 1, 2]`). -/
def gatherLookups (eventId userId : Nat) (order : List Nat) (db : DB) :
    Option User × Option Event × Option CheckIn :=
  order.foldl (lookupStep eventId userId db) (none, none, none)

/-- `checkInToEvent` with its three lookups completed in the order given by
`order` before any branching logic runs. -/
def checkInToEventWithOrder (order : List Nat) (eventId userId : Nat) (createOk : Bool)
    (db : DB) : Exec :=
  let l := gatherLookups eventId userId order db
  checkInBranch eventId userId createOk db l.1 l.2.1 l.2.2

/-- Cascading force-delete of a user: the user row and every row referencing
it go. Tokens and talks cascade per the Token model and the talks migration
(`ON DELETE CASCADE`); modelled from the spec for applications and check-ins
(§4.2, §8: "removes the user and all cascade-linked rows (tokens,
applications, talks, check-ins)") — those model files are not under src/. -/
def cascadeDeleteUser (id : Nat) (db : DB) : DB :=
  { db with
    users := db.users.filter (fun u => u.id != id),
    tokens := db.tokens.filter (fun t => t.user_id != id),
    applications := db.applications.filter (fun a => a.user_id != id),
    talks := db.talks.filter (fun t => t.speaker_id != id),
    checkIns := db.checkIns.filter (fun c => c.user_id != id) }

/-- `deleteUserById(id)` (user.controller.js lines 155-181): looks the user
up; if absent rejects NotFound; otherwise opens a transaction, initiates
`user.destroy({force: true}, ...)` WITHOUT awaiting it, resolves
`{success: true, message: null}`, and only then the destroy completes and the
commit is awaited — the trace records this source order. -/
def deleteUserById (id : Nat) (db : DB) : Exec :=
  match getUserById id db with
  | none =>
    let s0 : Exec := { db := db, pending := [], tx := .noTx, settled := none, trace := [] }
    s0.reject (.notFound "User does not exist")
  | some u =>
    let s0 : Exec := { db := db, pending := [], tx := .opened, settled := none, trace := [.txBegin] }
    let s1 : Exec := { s0 with trace := s0.trace ++ [.destroyStart u.id] }
    let s2 := s1.resolve { success := true, message := none }
    let s3 : Exec := { s2 with db := cascadeDeleteUser u.id s2.db,
                               trace := s2.trace ++ [.destroyComplete u.id] }
    s3.commit

/-- The core invariant: at most one CheckIn row per (event, user) pair. -/
def DB.wf (db : DB) : Prop :=
  ∀ e u : Nat, checkInCount e u db ≤ 1

/-- Whether a successful resolve occurs somewhere in a trace. -/
def hasSuccessResolve : List Act → Bool
  | [] => false
  | .resolve r :: rest => r.success || hasSuccessResolve rest
  | _ :: rest => hasSuccessResolve rest

/-- Whether a commit occurs somewhere in a trace. -/
def hasCommit : List Act → Bool
  | [] => false
  | .txCommit :: _ => true
  | _ :: rest => hasCommit rest

/-- Whether a commit occurs strictly before a successful resolve. -/
def commitBeforeSuccessResolve : List Act → Bool
  | [] => false
  | .txCommit :: rest => hasSuccessResolve rest || commitBeforeSuccessResolve rest
  | _ :: rest => commitBeforeSuccessResolve rest

/-- Whether a successful resolve occurs strictly before a commit. -/
def successResolveBeforeCommit : List Act → Bool
  | [] => false
  | .resolve r :: rest => (r.success && hasCommit rest) || successResolveBeforeCommit rest
  | _ :: rest => successResolveBeforeCommit rest

/-- Concrete database used as evaluation witness: user 42 "a@b.com",
event 5 "Hackathon", no check-ins, one token/application/talk of user 42. -/
def dbW : DB :=
  { users := [{ id := 42, email := "a@b.com" }],
    events := [{ id := 5, name := "Hackathon" }],
    checkIns := [],
    tokens := [{ id := 1, user_id := 42 }],
    applications := [{ id := 9, user_id := 42 }],
    talks := [{ id := 3, speaker_id := 42 }] }

/-- `dbW` with user 42 already checked into event 5. -/
def dbW2 : DB := { dbW with checkIns := [{ event_id := 5, user_id := 42 }] }

/-! ### Path lemmas: the value of each call on each control-flow path -/

theorem getUserById_id (id : Nat) (db : DB) (u : User)
    (h : getUserById id db = some u) : u.id = id := by
  have hp := List.find?_some h
  simpa using hp

theorem checkIn_user_missing (eventId userId : Nat) (createOk : Bool) (db : DB)
    (hu : getUserById userId db = none) :
    checkInToEvent eventId userId createOk db =
      { db := db, pending := [], tx := .rolledBack,
        settled := some (.error (.notFound "Unable to check-in because user does not exist")),
        trace := [.txBegin,
                  .reject (.notFound "Unable to check-in because user does not exist"),
                  .txRollback] } := by
  simp [checkInToEvent, checkInBranch, hu, Exec.reject, Exec.rollback]

theorem checkIn_event_missing (eventId userId : Nat) (createOk : Bool) (db : DB) (u : User)
    (hu : getUserById userId db = some u)
    (he : getEventById eventId db = none) :
    checkInToEvent eventId userId createOk db =
      { db := db, pending := [], tx := .rolledBack,
        settled := some (.error (.notFound "Unable to check-in because event does not exist")),
        trace := [.txBegin,
                  .reject (.notFound "Unable to check-in because event does not exist"),
                  .txRollback] } := by
  simp [checkInToEvent, checkInBranch, hu, he, Exec.reject, Exec.rollback]

theorem checkIn_existing (eventId userId : Nat) (createOk : Bool) (db : DB)
    (u : User) (ev : Event) (c : CheckIn)
    (hu : getUserById userId db = some u)
    (he : getEventById eventId db = some ev)
    (hc : getCheckIn eventId userId db = some c) :
    checkInToEvent eventId userId createOk db =
      { db := db, pending := [], tx := .opened,
        settled := some (.ok ⟨false, some (u.email ++ " has already checked into " ++ ev.name)⟩),
        trace := [.txBegin,
                  .resolve ⟨false, some (u.email ++ " has already checked into " ++ ev.name)⟩] } := by
  simp [checkInToEvent, checkInBranch, hu, he, hc, Exec.resolve]

theorem checkIn_fresh (eventId userId : Nat) (db : DB) (u : User) (ev : Event)
    (hu : getUserById userId db = some u)
    (he : getEventById eventId db = some ev)
    (hc : getCheckIn eventId userId db = none) :
    checkInToEvent eventId userId true db =
      { db := { db with checkIns := db.checkIns ++ [{ event_id := eventId, user_id := userId }] },
        pending := [], tx := .committed,
        settled := some (.ok ⟨true, some (u.email ++ " checked into " ++ ev.name ++ "!")⟩),
        trace := [.txBegin, .createCheckIn eventId userId,
                  .resolve ⟨true, some (u.email ++ " checked into " ++ ev.name ++ "!")⟩,
                  .txCommit] } := by
  simp [checkInToEvent, checkInBranch, hu, he, hc, Exec.resolve, Exec.commit]

theorem checkIn_create_failed (eventId userId : Nat) (db : DB) (u : User) (ev : Event)
    (hu : getUserById userId db = some u)
    (he : getEventById eventId db = some ev)
    (hc : getCheckIn eventId userId db = none) :
    checkInToEvent eventId userId false db =
      { db := db, pending := [], tx := .rolledBack,
        settled := some (.error (.storage "CheckIn.create failed")),
        trace := [.txBegin, .reject (.storage "CheckIn.create failed"), .txRollback] } := by
  simp [checkInToEvent, checkInBranch, hu, he, hc, Exec.reject, Exec.rollback]

theorem delete_user_missing (id : Nat) (db : DB)
    (h : getUserById id db = none) :
    deleteUserById id db =
      { db := db, pending := [], tx := .noTx,
        settled := some (.error (.notFound "User does not exist")),
        trace := [.reject (.notFound "User does not exist")] } := by
  simp [deleteUserById, h, Exec.reject]

theorem delete_user_found (id : Nat) (db : DB) (u : User)
    (h : getUserById id db = some u) :
    deleteUserById id db =
      { db := cascadeDeleteUser u.id db, pending := [], tx := .committed,
        settled := some (.ok ⟨true, none⟩),
        trace := [.txBegin, .destroyStart u.id, .resolve ⟨true, none⟩,
                  .destroyComplete u.id, .txCommit] } := by
  simp [deleteUserById, h, Exec.resolve, Exec.commit]

/-! ### Counting lemmas for CheckIn rows -/

theorem checkInCount_of_getCheckIn_none (e u : Nat) (db : DB)
    (hc : getCheckIn e u db = none) : checkInCount e u db = 0 := by
  unfold checkInCount
  rw [List.filter_eq_nil_iff.mpr (List.find?_eq_none.mp hc)]
  rfl

theorem one_le_checkInCount_of_getCheckIn_some (e u : Nat) (db : DB) (c : CheckIn)
    (hc : getCheckIn e u db = some c) : 1 ≤ checkInCount e u db := by
  have hmem : c ∈ db.checkIns := List.mem_of_find?_eq_some hc
  have hp : matchesPair e u c = true := List.find?_some hc
  have hmf : c ∈ db.checkIns.filter (matchesPair e u) := List.mem_filter.mpr ⟨hmem, hp⟩
  have := List.length_pos.mpr (List.ne_nil_of_mem hmf)
  simpa [checkInCount] using this

theorem getCheckIn_append_pair (e u : Nat) (db : DB)
    (hc : getCheckIn e u db = none) :
    getCheckIn e u { db with checkIns := db.checkIns ++ [{ event_id := e, user_id := u }] } =
      some { event_id := e, user_id := u } := by
  unfold getCheckIn at hc ⊢
  rw [List.find?_append, hc]
  simp [matchesPair]

theorem checkInCount_append_pair (e u e' u' : Nat) (db : DB) :
    checkInCount e' u' { db with checkIns := db.checkIns ++ [{ event_id := e, user_id := u }] } =
      checkInCount e' u' db + (if e = e' ∧ u = u' then 1 else 0) := by
  unfold checkInCount
  rw [List.filter_append, List.length_append]
  by_cases h1 : e = e' <;> by_cases h2 : u = u' <;>
    simp [matchesPair, h1, h2]

/-- Every path of `checkInToEvent` preserves the at-most-one-CheckIn-per-pair
invariant. -/
theorem checkIn_preserves_wf (e u : Nat) (createOk : Bool) (db : DB) (h : db.wf) :
    ((checkInToEvent e u createOk db).db).wf := by
  cases hu : getUserById u db with
  | none =>
    rw [checkIn_user_missing e u createOk db hu]; exact h
  | some us =>
    cases he : getEventById e db with
    | none =>
      rw [checkIn_event_missing e u createOk db us hu he]; exact h
    | some ev =>
      cases hc : getCheckIn e u db with
      | some c =>
        rw [checkIn_existing e u createOk db us ev c hu he hc]; exact h
      | none =>
        cases createOk with
        | false =>
          rw [checkIn_create_failed e u db us ev hu he hc]; exact h
        | true =>
          rw [checkIn_fresh e u db us ev hu he hc]
          intro e' u'
          show checkInCount e' u'
            { db with checkIns := db.checkIns ++ [{ event_id := e, user_id := u }] } ≤ 1
          rw [checkInCount_append_pair]
          by_cases hp : e = e' ∧ u = u'
          · rcases hp with ⟨rfl, rfl⟩
            simp [checkInCount_of_getCheckIn_none e u db hc]
          · simpa [hp] using h e' u'

/-! ### Claim theorems -/

/-- C1: when the user and the event both exist and no CheckIn for
(eventId, userId) exists, checkIn creates exactly one CheckIn row for that
pair and returns success with the message "<email> checked into <event>!". -/
theorem checkIn_fresh_creates_row_and_succeeds
    (eventId userId : Nat) (db : DB) (u : User) (ev : Event)
    (hu : getUserById userId db = some u)
    (he : getEventById eventId db = some ev)
    (hc : getCheckIn eventId userId db = none) :
    (checkInToEvent eventId userId true db).settled =
      some (.ok ⟨true, some (u.email ++ " checked into " ++ ev.name ++ "!")⟩) ∧
    (checkInToEvent eventId userId true db).db.checkIns =
      db.checkIns ++ [{ event_id := eventId, user_id := userId }] ∧
    checkInCount eventId userId (checkInToEvent eventId userId true db).db = 1 := by
  rw [checkIn_fresh eventId userId db u ev hu he hc]
  refine ⟨rfl, rfl, ?_⟩
  show checkInCount eventId userId
    { db with checkIns := db.checkIns ++ [{ event_id := eventId, user_id := userId }] } = 1
  rw [checkInCount_append_pair]
  simp [checkInCount_of_getCheckIn_none eventId userId db hc]

/-- C1 witness: evaluated on `dbW` at event 5, user 42. -/
theorem checkIn_fresh_creates_row_and_succeeds_witness :
    (checkInToEvent 5 42 true dbW).settled =
      some (.ok ⟨true, some ("a@b.com" ++ " checked into " ++ "Hackathon" ++ "!")⟩) ∧
    (checkInToEvent 5 42 true dbW).db.checkIns =
      dbW.checkIns ++ [{ event_id := 5, user_id := 42 }] ∧
    checkInCount 5 42 (checkInToEvent 5 42 true dbW).db = 1 :=
  checkIn_fresh_creates_row_and_succeeds 5 42 dbW ⟨42, "a@b.com"⟩ ⟨5, "Hackathon"⟩ rfl rfl rfl

/-- C3: if the user or the event does not exist, checkIn settles with a
NotFoundError and leaves the database unchanged (no CheckIn row created). -/
theorem checkIn_missing_entity_not_found
    (eventId userId : Nat) (createOk : Bool) (db : DB)
    (h : getUserById userId db = none ∨ getEventById eventId db = none) :
    (∃ m, (checkInToEvent eventId userId createOk db).settled =
      some (.error (.notFound m))) ∧
    (checkInToEvent eventId userId createOk db).db = db := by
  rcases h with h | h
  · rw [checkIn_user_missing eventId userId createOk db h]
    exact ⟨⟨_, rfl⟩, rfl⟩
  · cases hu : getUserById userId db with
    | none =>
      rw [checkIn_user_missing eventId userId createOk db hu]
      exact ⟨⟨_, rfl⟩, rfl⟩
    | some u =>
      rw [checkIn_event_missing eventId userId createOk db u hu h]
      exact ⟨⟨_, rfl⟩, rfl⟩

/-- C3 witness: evaluated on `dbW` with missing user 99 at event 5. -/
theorem checkIn_missing_entity_not_found_witness :
    (∃ m, (checkInToEvent 5 99 true dbW).settled = some (.error (.notFound m))) ∧
    (checkInToEvent 5 99 true dbW).db = dbW :=
  checkIn_missing_entity_not_found 5 99 true dbW (Or.inl rfl)

/-- C8: whenever checkIn settles with an error (NotFoundError or storage
error, all raised before the commit), the transaction is rolled back, the
error is delivered to the caller, and no CheckIn row created by that call
persists: the database is unchanged. -/
theorem checkIn_error_rolls_back
    (eventId userId : Nat) (createOk : Bool) (db : DB) (err : Err)
    (h : (checkInToEvent eventId userId createOk db).settled = some (.error err)) :
    (checkInToEvent eventId userId createOk db).tx = .rolledBack ∧
    Act.txRollback ∈ (checkInToEvent eventId userId createOk db).trace ∧
    (checkInToEvent eventId userId createOk db).db = db := by
  cases hu : getUserById userId db with
  | none =>
    rw [checkIn_user_missing eventId userId createOk db hu]
    exact ⟨rfl, by simp, rfl⟩
  | some u =>
    cases he : getEventById eventId db with
    | none =>
      rw [checkIn_event_missing eventId userId createOk db u hu he]
      exact ⟨rfl, by simp, rfl⟩
    | some ev =>
      cases hc : getCheckIn eventId userId db with
      | some c =>
        rw [checkIn_existing eventId userId createOk db u ev c hu he hc] at h
        simp at h
      | none =>
        cases createOk with
        | true =>
          rw [checkIn_fresh eventId userId db u ev hu he hc] at h
          simp at h
        | false =>
          rw [checkIn_create_failed eventId userId db u ev hu he hc]
          exact ⟨rfl, by simp, rfl⟩

/-- C8 witness: evaluated on `dbW` with missing user 99 at event 5. -/
theorem checkIn_error_rolls_back_witness :
    (checkInToEvent 5 99 true dbW).tx = .rolledBack ∧
    Act.txRollback ∈ (checkInToEvent 5 99 true dbW).trace ∧
    (checkInToEvent 5 99 true dbW).db = dbW :=
  checkIn_error_rolls_back 5 99 true dbW
    (.notFound "Unable to check-in because user does not exist") rfl

/-- C10: when neither the user nor the event exists, checkIn fails with the
NotFoundError naming the missing user — the user check precedes the event
check. -/
theorem checkIn_both_missing_user_error
    (eventId userId : Nat) (createOk : Bool) (db : DB)
    (hu : getUserById userId db = none)
    (_he : getEventById eventId db = none) :
    (checkInToEvent eventId userId createOk db).settled =
      some (.error (.notFound "Unable to check-in because user does not exist")) := by
  rw [checkIn_user_missing eventId userId createOk db hu]

/-- C10 witness: evaluated on `dbW` with missing user 99 and missing event 7. -/
theorem checkIn_both_missing_user_error_witness :
    (checkInToEvent 7 99 true dbW).settled =
      some (.error (.notFound "Unable to check-in because user does not exist")) :=
  checkIn_both_missing_user_error 7 99 true dbW rfl rfl

/-- C2: with both entities existing, calling checkIn twice for the same
(eventId, userId) leaves exactly one CheckIn row for that pair, the second
call returns success:false with the "already checked into" message, and every
checkIn call preserves the at-most-one-CheckIn-per-pair invariant. -/
theorem checkIn_twice_one_row
    (eventId userId : Nat) (db : DB) (u : User) (ev : Event)
    (hwf : db.wf)
    (hu : getUserById userId db = some u)
    (he : getEventById eventId db = some ev) :
    checkInCount eventId userId
      (checkInToEvent eventId userId true (checkInToEvent eventId userId true db).db).db = 1 ∧
    (checkInToEvent eventId userId true (checkInToEvent eventId userId true db).db).settled =
      some (.ok ⟨false, some (u.email ++ " has already checked into " ++ ev.name)⟩) ∧
    (∀ (e u : Nat) (createOk : Bool) (d : DB), d.wf → ((checkInToEvent e u createOk d).db).wf) := by
  have hinv : ∀ (e u : Nat) (createOk : Bool) (d : DB), d.wf →
      ((checkInToEvent e u createOk d).db).wf :=
    fun e u createOk d hd => checkIn_preserves_wf e u createOk d hd
  cases hc : getCheckIn eventId userId db with
  | none =>
    have hc1 := getCheckIn_append_pair eventId userId db hc
    have hu1 : getUserById userId
        { db with checkIns := db.checkIns ++ [{ event_id := eventId, user_id := userId }] } =
        some u := hu
    have he1 : getEventById eventId
        { db with checkIns := db.checkIns ++ [{ event_id := eventId, user_id := userId }] } =
        some ev := he
    rw [checkIn_fresh eventId userId db u ev hu he hc]
    dsimp only
    rw [checkIn_existing eventId userId true _ u ev _ hu1 he1 hc1]
    dsimp only
    refine ⟨?_, rfl, hinv⟩
    rw [checkInCount_append_pair]
    simp [checkInCount_of_getCheckIn_none eventId userId db hc]
  | some c =>
    rw [checkIn_existing eventId userId true db u ev c hu he hc]
    dsimp only
    rw [checkIn_existing eventId userId true db u ev c hu he hc]
    dsimp only
    refine ⟨?_, rfl, hinv⟩
    exact Nat.le_antisymm (hwf eventId userId)
      (one_le_checkInCount_of_getCheckIn_some eventId userId db c hc)

/-- C2 witness: evaluated on `dbW` at event 5, user 42. -/
theorem checkIn_twice_one_row_witness :
    checkInCount 5 42 (checkInToEvent 5 42 true (checkInToEvent 5 42 true dbW).db).db = 1 ∧
    (checkInToEvent 5 42 true (checkInToEvent 5 42 true dbW).db).settled =
      some (.ok ⟨false, some ("a@b.com" ++ " has already checked into " ++ "Hackathon")⟩) :=
  ⟨(checkIn_twice_one_row 5 42 dbW ⟨42, "a@b.com"⟩ ⟨5, "Hackathon"⟩
      (fun e u => by simp [checkInCount, dbW]) rfl rfl).1,
   (checkIn_twice_one_row 5 42 dbW ⟨42, "a@b.com"⟩ ⟨5, "Hackathon"⟩
      (fun e u => by simp [checkInCount, dbW]) rfl rfl).2.1⟩

/-- C4 is violated by the code: on `dbW2` (user 42 already checked into
event 5) the already-checked-in path settles success:false, yet the
transaction opened by the call stays open — neither a commit nor a rollback
occurs by the time the result is delivered. -/
theorem checkIn_already_leaves_tx_open :
    (checkInToEvent 5 42 true dbW2).settled =
      some (.ok ⟨false, some "a@b.com has already checked into Hackathon"⟩) ∧
    (checkInToEvent 5 42 true dbW2).tx = TxStatus.opened ∧
    Act.txCommit ∉ (checkInToEvent 5 42 true dbW2).trace ∧
    Act.txRollback ∉ (checkInToEvent 5 42 true dbW2).trace := by
  decide

/-- C5 is violated by the code: deleting existing user 42 of `dbW` resolves
success:true at trace position 2, before the unawaited destroy completes
(position 3) and before the commit (position 4). -/
theorem delete_resolves_before_destroy_completes :
    (deleteUserById 42 dbW).trace =
      [Act.txBegin, Act.destroyStart 42, Act.resolve ⟨true, none⟩,
       Act.destroyComplete 42, Act.txCommit] ∧
    successResolveBeforeCommit (deleteUserById 42 dbW).trace = true ∧
    commitBeforeSuccessResolve (deleteUserById 42 dbW).trace = false := by
  decide

/-- C6 counterexample: on the fresh path at event 5 / user 42 of `dbW` the
call settles success:true and the trace contains a commit, but no commit
precedes the successful resolve — the transaction is NOT committed before the
success result is delivered. -/
theorem checkIn_commit_not_before_result :
    (checkInToEvent 5 42 true dbW).settled =
      some (.ok ⟨true, some "a@b.com checked into Hackathon!"⟩) ∧
    hasCommit (checkInToEvent 5 42 true dbW).trace = true ∧
    commitBeforeSuccessResolve (checkInToEvent 5 42 true dbW).trace = false := by
  decide

/-- C6 (amended): on the fresh-check-in path the CheckIn is created inside
the transaction scope and the transaction is committed before the call's
executor finishes, but the success result is resolved BEFORE the commit, not
after it. -/
theorem checkIn_fresh_commit_after_resolve
    (eventId userId : Nat) (db : DB) (u : User) (ev : Event)
    (hu : getUserById userId db = some u)
    (he : getEventById eventId db = some ev)
    (hc : getCheckIn eventId userId db = none) :
    (checkInToEvent eventId userId true db).trace =
      [.txBegin, .createCheckIn eventId userId,
       .resolve ⟨true, some (u.email ++ " checked into " ++ ev.name ++ "!")⟩,
       .txCommit] ∧
    successResolveBeforeCommit (checkInToEvent eventId userId true db).trace = true ∧
    commitBeforeSuccessResolve (checkInToEvent eventId userId true db).trace = false ∧
    (checkInToEvent eventId userId true db).tx = .committed := by
  rw [checkIn_fresh eventId userId db u ev hu he hc]
  exact ⟨rfl, rfl, rfl, rfl⟩

/-- C6 amended-claim witness: evaluated on `dbW` at event 5, user 42. -/
theorem checkIn_fresh_commit_after_resolve_witness :
    (checkInToEvent 5 42 true dbW).trace =
      [Act.txBegin, Act.createCheckIn 5 42,
       Act.resolve ⟨true, some ("a@b.com" ++ " checked into " ++ "Hackathon" ++ "!")⟩,
       Act.txCommit] ∧
    successResolveBeforeCommit (checkInToEvent 5 42 true dbW).trace = true ∧
    commitBeforeSuccessResolve (checkInToEvent 5 42 true dbW).trace = false ∧
    (checkInToEvent 5 42 true dbW).tx = TxStatus.committed :=
  checkIn_fresh_commit_after_resolve 5 42 dbW ⟨42, "a@b.com"⟩ ⟨5, "Hackathon"⟩ rfl rfl rfl

/-- Rows referencing a deleted user are all gone after the cascade. -/
theorem cascadeDeleteUser_clears (id : Nat) (db : DB) :
    (∀ x ∈ (cascadeDeleteUser id db).users, x.id ≠ id) ∧
    (∀ x ∈ (cascadeDeleteUser id db).tokens, x.user_id ≠ id) ∧
    (∀ x ∈ (cascadeDeleteUser id db).applications, x.user_id ≠ id) ∧
    (∀ x ∈ (cascadeDeleteUser id db).talks, x.speaker_id ≠ id) ∧
    (∀ x ∈ (cascadeDeleteUser id db).checkIns, x.user_id ≠ id) := by
  refine ⟨?_, ?_, ?_, ?_, ?_⟩ <;>
    · intro x hx
      simp only [cascadeDeleteUser] at hx
      have hp := (List.mem_filter.mp hx).2
      simpa using hp

/-- C7: deleteById fails with NotFoundError exactly when no user with the id
exists, mutating nothing in that case; for an existing user it returns
success:true / message:null and removes the user together with every
cascade-linked token, application, talk and check-in row. -/
theorem delete_user_by_id_correct (id : Nat) (db : DB) :
    ((∃ m, (deleteUserById id db).settled = some (.error (.notFound m))) ↔
      getUserById id db = none) ∧
    (getUserById id db = none → (deleteUserById id db).db = db) ∧
    (∀ u : User, getUserById id db = some u →
      (deleteUserById id db).settled = some (.ok ⟨true, none⟩) ∧
      (∀ x ∈ (deleteUserById id db).db.users, x.id ≠ id) ∧
      (∀ x ∈ (deleteUserById id db).db.tokens, x.user_id ≠ id) ∧
      (∀ x ∈ (deleteUserById id db).db.applications, x.user_id ≠ id) ∧
      (∀ x ∈ (deleteUserById id db).db.talks, x.speaker_id ≠ id) ∧
      (∀ x ∈ (deleteUserById id db).db.checkIns, x.user_id ≠ id)) := by
  cases h : getUserById id db with
  | none =>
    rw [delete_user_missing id db h]
    dsimp only
    refine ⟨⟨fun _ => rfl, fun _ => ⟨"User does not exist", rfl⟩⟩, fun _ => rfl, ?_⟩
    intro u hu
    simp at hu
  | some u0 =>
    have hid : u0.id = id := getUserById_id id db u0 h
    rw [delete_user_found id db u0 h]
    dsimp only
    refine ⟨⟨?_, ?_⟩, ?_, ?_⟩
    · rintro ⟨m, hm⟩
      simp at hm
    · intro hn
      simp at hn
    · intro hn
      simp at hn
    · intro u hu
      rw [hid]
      exact ⟨rfl, (cascadeDeleteUser_clears id db).1, (cascadeDeleteUser_clears id db).2.1,
        (cascadeDeleteUser_clears id db).2.2.1, (cascadeDeleteUser_clears id db).2.2.2.1,
        (cascadeDeleteUser_clears id db).2.2.2.2⟩

/-- C7 witness: evaluated on `dbW` at missing id 7 and existing id 42. -/
theorem delete_user_by_id_correct_witness :
    (deleteUserById 7 dbW).db = dbW ∧
    (deleteUserById 42 dbW).settled = some (.ok ⟨true, none⟩) :=
  ⟨(delete_user_by_id_correct 7 dbW).2.1 rfl,
   ((delete_user_by_id_correct 42 dbW).2.2 ⟨42, "a@b.com"⟩ rfl).1⟩

/-- C9: the three lookups of checkIn are joined before any branching logic
runs, and completing them in any of the 3! possible orders against the same
state yields the same call outcome. -/
theorem checkIn_lookup_order_irrelevant
    (order : List Nat) (eventId userId : Nat) (createOk : Bool) (db : DB)
    (h : order ∈ ([[0, 1, 2], [0, 2, 1], [1, 0, 2], [1, 2, 0], [2, 0, 1], [2, 1, 0]] :
      List (List Nat))) :
    checkInToEventWithOrder order eventId userId createOk db =
      checkInToEvent eventId userId createOk db := by
  simp only [List.mem_cons, List.not_mem_nil, or_false] at h
  rcases h with rfl | rfl | rfl | rfl | rfl | rfl <;> rfl

/-- C9 witness: evaluated with order [2, 0, 1] on `dbW` at event 5, user 42. -/
theorem checkIn_lookup_order_irrelevant_witness :
    checkInToEventWithOrder [2, 0, 1] 5 42 true dbW = checkInToEvent 5 42 true dbW :=
  checkIn_lookup_order_irrelevant [2, 0, 1] 5 42 true dbW (by decide)

end WildHacks
